import Mathlib

/-!
Verification development for the orbital-mechanics core of the solar-system
visualizer.

The data model and operations are shallowly embedded from the TypeScript
source:

* `src/data/PlanetData.ts` — the orbital-element catalog (`PLANETS`,
  `SUN_DATA`) and the pure scale-model functions (`getScaledRadius`,
  `getScaledOrbitRadius`, `getScaledMoonRadius`, `getScaledMoonOrbitRadius`).
* `src/scene/Planet.ts` — the per-body Keplerian propagation
  (`Planet.update`, `Planet.updatePosition`, `Planet.calculateOrbitAngleForDate`).
* `src/scene/SolarSystem.ts` — the per-frame driver (`SolarSystem.update`,
  `setTimeScale`, `setReferenceDate`).
* `src/ui/TimeControls.ts` — play/pause handling (`togglePlayPause`).
* `src/scene/AsteroidBelt.ts` — the asteroid-field generator
  (`generateAsteroids`, belt radii).

Numeric conventions: the catalog and all arithmetic that the source performs
with rational constants are embedded over `ℚ`; quantities that the source
computes with transcendental functions (`Math.pow` with fractional exponent,
`Math.sin`, `Math.cos`, `Math.atan2`, `Math.sqrt`) are embedded over `ℝ`.
Angles that the source measures in radians as multiples of `2π` are, where
convenient, embedded in *revolutions* (the source's angle divided by `2π`),
which keeps the arithmetic in `ℚ`; each such definition notes the conversion.
Rendering-only data (colors, textures, temperatures, ring geometry, shadow
flags) is not part of the embedded model.
-/

/-! ## Catalog data model (`src/types/planet.ts`, `src/data/PlanetData.ts`) -/

/-- One entry of a planet's `moons` array: physical and orbital parameters of
a moon.  `orbitalRadius` is in AU (the source stores `<km> / AU`), and
`orbitalPeriod` in days, negative for retrograde (Triton). -/
structure MoonData where
  name : String
  radius : ℚ
  orbitalRadius : ℚ
  orbitalPeriod : ℚ
  inclination : ℚ

/-- One entry of the `PLANETS` catalog.  Radii in km, `orbitalRadius` in AU,
`orbitalPeriod` in days, `rotationPeriod` in hours (negative encodes
retrograde spin), angles in degrees. -/
structure PlanetData where
  name : String
  radius : ℚ
  mass : ℚ
  orbitalRadius : ℚ
  orbitalPeriod : ℚ
  rotationPeriod : ℚ
  inclination : ℚ
  eccentricity : ℚ
  axialTilt : ℚ
  moons : List MoonData := []

/-- `AU` from `PlanetData.ts`: kilometres per astronomical unit. -/
def AU : ℚ := 149597870.7

/-- `EARTH_RADIUS` from `PlanetData.ts`, in km. -/
def EARTH_RADIUS : ℚ := 6371

/-- `SUN_DATA.rotationPeriod` from `PlanetData.ts`: sidereal rotation at the
equator, in days. -/
def sunRotationPeriodDays : ℚ := 24.47

/-- The Mercury entry of the `PLANETS` catalog in `PlanetData.ts`. -/
def mercuryData : PlanetData :=
  { name := "Mercury", radius := 2439.7, mass := 3.3011e23,
    orbitalRadius := 0.387, orbitalPeriod := 87.969, rotationPeriod := 1407.6,
    inclination := 7.005, eccentricity := 0.2056, axialTilt := 0.034 }

/-- The Venus entry of the `PLANETS` catalog (negative `rotationPeriod`
encodes retrograde spin). -/
def venusData : PlanetData :=
  { name := "Venus", radius := 6051.8, mass := 4.8675e24,
    orbitalRadius := 0.723, orbitalPeriod := 224.701, rotationPeriod := -5832.5,
    inclination := 3.3946, eccentricity := 0.0067, axialTilt := 177.4 }

/-- The Earth entry of the `PLANETS` catalog, with the Moon. -/
def earthData : PlanetData :=
  { name := "Earth", radius := 6371, mass := 5.972e24,
    orbitalRadius := 1.0, orbitalPeriod := 365.256, rotationPeriod := 23.9345,
    inclination := 0.0, eccentricity := 0.0167, axialTilt := 23.44,
    moons := [
      { name := "Moon", radius := 1737.4, orbitalRadius := 384400 / AU,
        orbitalPeriod := 27.322, inclination := 5.145 }] }

/-- The Mars entry of the `PLANETS` catalog, with Phobos and Deimos. -/
def marsData : PlanetData :=
  { name := "Mars", radius := 3389.5, mass := 6.4171e23,
    orbitalRadius := 1.524, orbitalPeriod := 686.98, rotationPeriod := 24.6229,
    inclination := 1.85, eccentricity := 0.0935, axialTilt := 25.19,
    moons := [
      { name := "Phobos", radius := 11.267, orbitalRadius := 9376 / AU,
        orbitalPeriod := 0.31891, inclination := 1.093 },
      { name := "Deimos", radius := 6.2, orbitalRadius := 23463 / AU,
        orbitalPeriod := 1.263, inclination := 1.791 }] }

/-- The Jupiter entry of the `PLANETS` catalog, with the Galilean moons. -/
def jupiterData : PlanetData :=
  { name := "Jupiter", radius := 69911, mass := 1.8982e27,
    orbitalRadius := 5.204, orbitalPeriod := 4332.59, rotationPeriod := 9.9250,
    inclination := 1.303, eccentricity := 0.0489, axialTilt := 3.13,
    moons := [
      { name := "Io", radius := 1821.6, orbitalRadius := 421800 / AU,
        orbitalPeriod := 1.769, inclination := 0.05 },
      { name := "Europa", radius := 1560.8, orbitalRadius := 671034 / AU,
        orbitalPeriod := 3.551, inclination := 0.47 },
      { name := "Ganymede", radius := 2634.1, orbitalRadius := 1070412 / AU,
        orbitalPeriod := 7.155, inclination := 0.20 },
      { name := "Callisto", radius := 2410.3, orbitalRadius := 1882709 / AU,
        orbitalPeriod := 16.689, inclination := 0.51 }] }

/-- The Saturn entry of the `PLANETS` catalog, with Titan and Enceladus. -/
def saturnData : PlanetData :=
  { name := "Saturn", radius := 58232, mass := 5.6834e26,
    orbitalRadius := 9.5826, orbitalPeriod := 10759.22, rotationPeriod := 10.656,
    inclination := 2.485, eccentricity := 0.0565, axialTilt := 26.73,
    moons := [
      { name := "Titan", radius := 2574.7, orbitalRadius := 1221700 / AU,
        orbitalPeriod := 15.945, inclination := 0.34 },
      { name := "Enceladus", radius := 252.1, orbitalRadius := 238000 / AU,
        orbitalPeriod := 1.370, inclination := 0.02 }] }

/-- The Uranus entry of the `PLANETS` catalog, with its five major moons. -/
def uranusData : PlanetData :=
  { name := "Uranus", radius := 25362, mass := 8.6810e25,
    orbitalRadius := 19.2184, orbitalPeriod := 30688.5, rotationPeriod := -17.24,
    inclination := 0.773, eccentricity := 0.0463, axialTilt := 97.77,
    moons := [
      { name := "Miranda", radius := 236, orbitalRadius := 129900 / AU,
        orbitalPeriod := 1.413, inclination := 4.34 },
      { name := "Ariel", radius := 579, orbitalRadius := 190900 / AU,
        orbitalPeriod := 2.520, inclination := 0.04 },
      { name := "Umbriel", radius := 585, orbitalRadius := 266000 / AU,
        orbitalPeriod := 4.144, inclination := 0.13 },
      { name := "Titania", radius := 789, orbitalRadius := 436300 / AU,
        orbitalPeriod := 8.706, inclination := 0.08 },
      { name := "Oberon", radius := 761, orbitalRadius := 583500 / AU,
        orbitalPeriod := 13.463, inclination := 0.07 }] }

/-- The Neptune entry of the `PLANETS` catalog, with Triton (negative
`orbitalPeriod`, annotated "Negative for retrograde" in the source, and a
156.885-degree inclination). -/
def neptuneData : PlanetData :=
  { name := "Neptune", radius := 24622, mass := 1.02413e26,
    orbitalRadius := 30.07, orbitalPeriod := 60195, rotationPeriod := 16.11,
    inclination := 1.768, eccentricity := 0.0095, axialTilt := 28.32,
    moons := [
      { name := "Triton", radius := 1353.4, orbitalRadius := 354800 / AU,
        orbitalPeriod := -5.877, inclination := 156.885 }] }

/-- The `PLANETS` catalog from `PlanetData.ts`, loaded as-is (the source has
no validation step; the module-level array literal is the loaded catalog). -/
def PLANETS : List PlanetData :=
  [mercuryData, venusData, earthData, marsData,
   jupiterData, saturnData, uranusData, neptuneData]

/-! ## Scale model (`PlanetData.ts`), rational part -/

/-- `Math.max` on two rationals (kernel-reducible, unlike `max` from the
order instance).  For the finite inputs the scale model feeds it, JavaScript's
`Math.max` is exactly this. -/
def jsMax (a b : ℚ) : ℚ := if a ≤ b then b else a

/-- `getScaledRadius(radius, isSun)` from `PlanetData.ts`: the Sun maps to a
fixed 5 units; other bodies scale as `radius / 6371`, clamped below at 0.2. -/
def getScaledRadius (radius : ℚ) (isSun : Bool := false) : ℚ :=
  if isSun then 5
  else jsMax 0.2 (radius / 6371 * 1)

/-- `getScaledMoonRadius(radius)` from `PlanetData.ts`: `radius / 6371`
clamped below at 0.05. -/
def getScaledMoonRadius (radius : ℚ) : ℚ :=
  jsMax 0.05 (radius / 6371 * 1)

/-- `getScaledMoonOrbitRadius(radiusAU, planetName)` from `PlanetData.ts`,
embedded branch-for-branch: looks the parent up in `PLANETS`, compresses the
AU radius with a per-region base scale, applies the per-planet visibility
multiplier (Earth's branch returns early and ignores the multiplier), and
floors the result at `planetRadius + maxMoonRadius + 0.2`. -/
def getScaledMoonOrbitRadius (radiusAU : ℚ) (planetName : String) : ℚ :=
  match PLANETS.find? (fun p => p.name == planetName) with
  | none => jsMax 1.0 (radiusAU * 50)
  | some planet =>
    let planetRadius := getScaledRadius planet.radius
    let orbitRadiusKm := radiusAU * AU
    let orbitInPlanetRadii := orbitRadiusKm / planet.radius
    let planetAU := planet.orbitalRadius
    let baseScale : ℚ :=
      if planetAU ≤ 1.5 then 50
      else if planetAU ≤ 6.0 then 80
      else if planetAU ≤ 10.0 then 100
      else if planetAU ≤ 20.0 then 120
      else 150
    let compressedOrbitRadius := radiusAU * baseScale
    if planetName == "Earth" then
      jsMax (planetRadius + 0.5) compressedOrbitRadius
    else
      let visibilityMultiplier : ℚ :=
        if planetName == "Mars" then
          (if orbitInPlanetRadii < 5 then 400 else 300)
        else if planetName == "Jupiter" then
          (if orbitInPlanetRadii < 10 then 30
           else if orbitInPlanetRadii < 20 then 25 else 20)
        else if planetName == "Saturn" then
          (if orbitInPlanetRadii < 10 then 20 else 8)
        else if planetName == "Uranus" then
          (if orbitInPlanetRadii < 10 then 60 else 35)
        else if planetName == "Neptune" then 12
        else 1.0
      let scaledOrbitRadius := compressedOrbitRadius * visibilityMultiplier
      let maxMoonRadius :=
        planet.moons.foldl (fun acc m => jsMax acc (getScaledMoonRadius m.radius)) 0
      let safetyMargin : ℚ := 0.2
      let minSafeOrbit := planetRadius + maxMoonRadius + safetyMargin
      jsMax minSafeOrbit scaledOrbitRadius

example : getScaledRadius 6371 = 1 := by norm_num [getScaledRadius, jsMax]
example : getScaledRadius 696340 true = 5 := by norm_num [getScaledRadius]

/-! ## Keplerian propagation, rational part (`src/scene/Planet.ts`)

Orbit angles appear in the source as radians, always as a rational multiple
of `2π`.  The definitions below embed those angles in *revolutions*: the
value here times `2π` is the source's radian value.  This keeps the
arithmetic in `ℚ` exactly as the source computes it (up to the shared `2π`
factor, which cancels from every comparison we state). -/

/-- JavaScript truncation toward zero, as used by the `%` operator. -/
def jsTrunc (q : ℚ) : ℤ := if 0 ≤ q then ⌊q⌋ else ⌈q⌉

/-- The JavaScript remainder operator `a % n` on finite numbers:
`a - n * trunc(a / n)` (the result has the dividend's sign). -/
def jsMod (a n : ℚ) : ℚ := a - n * jsTrunc (a / n)

/-- `Planet.calculateOrbitAngleForDate(julianDay)` from `Planet.ts`, in
revolutions.  The source computes
`(longitudeAtEpoch + meanMotion * daysSinceJ2000) % (2π)` with
`meanMotion = 2π / (orbitalPeriod * 365.25)` and `longitudeAtEpoch` the
planet's tabulated mean longitude at J2000 in degrees converted to radians;
dividing by `2π` gives this function.  `longitudeAtEpochDeg` and
`orbitalPeriod` stand for `this.getPlanetLongitudeAtEpoch()` (the tabulated
degree value) and `this.data.orbitalPeriod`; the `Math.random()` fallback for
names missing from the table is not modelled (every catalog planet is in the
table). -/
def calculateOrbitAngleRevForDate (longitudeAtEpochDeg orbitalPeriod julianDay : ℚ) : ℚ :=
  let daysSinceJ2000 := julianDay - 2451545.0
  let meanMotionRev := 1 / (orbitalPeriod * 365.25)
  jsMod (longitudeAtEpochDeg / 360 + meanMotionRev * daysSinceJ2000) 1

/-- The `getPlanetLongitudeAtEpoch` table from `Planet.ts`, in degrees
(the source converts these constants with `degToRad`). -/
def planetLongitudeAtEpochDeg : String → Option ℚ
  | "Mercury" => some 252.25
  | "Venus" => some 181.98
  | "Earth" => some 100.47
  | "Mars" => some 355.43
  | "Jupiter" => some 34.35
  | "Saturn" => some 50.08
  | "Uranus" => some 314.05
  | "Neptune" => some 304.35
  | _ => none

/-- The planet orbit angle maintained by `Planet.update(delta, time)`, in
revolutions: `initialOrbitAngle + time * orbitalSpeed` with
`orbitalSpeed = 2π / (orbitalPeriod * 24 * 3600)` radians per second.  After
`setReferenceDate(jd)`, `initialOrbitAngle = calculateOrbitAngleForDate(jd)`,
which is the `initialRev` argument here. -/
def planetOrbitAngleRev (initialRev orbitalPeriod time : ℚ) : ℚ :=
  initialRev + time * (1 / (orbitalPeriod * 24 * 3600))

/-- The moon orbit angle computed in `Planet.update`'s moon loop, in
revolutions: the source sets
`moonAngle = time * 2π / (Math.abs(moonData.orbitalPeriod) * 24 * 3600)`;
dividing by `2π` gives this function.  Note the absolute value: the sign of
`orbitalPeriod` does not enter. -/
def moonOrbitAngleRev (orbitalPeriod time : ℚ) : ℚ :=
  time * (1 / (|orbitalPeriod| * 24 * 3600))

/-! ## The time-scale setter over the JavaScript number domain
(`src/scene/SolarSystem.ts`) -/

/-- A JavaScript `number` as far as the time-scale setter is concerned: a
finite value, `NaN`, or a signed infinity. -/
inductive JSNum where
  | finite (q : ℚ)
  | nan
  | posInf
  | negInf
deriving DecidableEq

/-- The part of `SolarSystem`'s state that `setTimeScale` touches, over the
full JavaScript number domain (the `ℝ`/`ℚ` embeddings elsewhere cover only
finite values). -/
structure TimeScaleState where
  timeScale : JSNum
deriving DecidableEq

/-- `SolarSystem.setTimeScale(scale)` from `SolarSystem.ts`: the body is the
single unconditional assignment `this.timeScale = scale` — there is no
finiteness check and no clamping. -/
def setTimeScaleJS (s : TimeScaleState) (scale : JSNum) : TimeScaleState :=
  { s with timeScale := scale }

/-! ## Catalog lookup lemmas for the planets that own moons -/

theorem find?_earth : PLANETS.find? (fun p => p.name == "Earth") = some earthData := by
  simp [PLANETS, mercuryData, venusData, earthData,
    List.find?_cons_of_neg, List.find?_cons_of_pos]

theorem find?_mars : PLANETS.find? (fun p => p.name == "Mars") = some marsData := by
  simp [PLANETS, mercuryData, venusData, earthData, marsData,
    List.find?_cons_of_neg, List.find?_cons_of_pos]

theorem find?_jupiter : PLANETS.find? (fun p => p.name == "Jupiter") = some jupiterData := by
  simp [PLANETS, mercuryData, venusData, earthData, marsData, jupiterData,
    List.find?_cons_of_neg, List.find?_cons_of_pos]

theorem find?_saturn : PLANETS.find? (fun p => p.name == "Saturn") = some saturnData := by
  simp [PLANETS, mercuryData, venusData, earthData, marsData, jupiterData,
    saturnData, List.find?_cons_of_neg, List.find?_cons_of_pos]

theorem find?_uranus : PLANETS.find? (fun p => p.name == "Uranus") = some uranusData := by
  simp [PLANETS, mercuryData, venusData, earthData, marsData, jupiterData,
    saturnData, uranusData, List.find?_cons_of_neg, List.find?_cons_of_pos]

theorem find?_neptune : PLANETS.find? (fun p => p.name == "Neptune") = some neptuneData := by
  simp [PLANETS, mercuryData, venusData, earthData, marsData, jupiterData,
    saturnData, uranusData, neptuneData,
    List.find?_cons_of_neg, List.find?_cons_of_pos]

/-! ## Scale model, real part (`PlanetData.ts`) -/

/-- `getScaledOrbitRadius(auDistance)` from `PlanetData.ts`:
`baseScale * Math.pow(auDistance, exponent)` with `baseScale = 50` and
`exponent = 0.8`.  The function takes only the AU distance — the policy and
its constants are fixed in the body. -/
noncomputable def getScaledOrbitRadius (auDistance : ℝ) : ℝ :=
  let baseScale : ℝ := 50
  let exponent : ℝ := 0.8
  baseScale * auDistance ^ exponent

/-- Modelled from the spec: the alternative *linear* orbital-radius policy
`auDistance * 30` that §4.1 of the spec names as a second selectable mode.
No such policy exists in `PlanetData.ts`; this definition follows the spec's
words and exists only to be compared with `getScaledOrbitRadius`. -/
def linearScaledOrbitRadius (auDistance : ℝ) : ℝ := auDistance * 30

/-! ## Asteroid field (`src/scene/AsteroidBelt.ts`) -/

/-- `this.innerRadius = 2.2 * 80` from the `AsteroidBelt` constructor:
inner belt edge, AU converted to scene units at 80 units per AU. -/
def beltInnerRadius : ℝ := 2.2 * 80

/-- `this.outerRadius = 3.3 * 80` from the `AsteroidBelt` constructor. -/
def beltOuterRadius : ℝ := 3.3 * 80

/-- The orbital radius sampled in `generateAsteroids`:
`innerRadius + Math.random() * (outerRadius - innerRadius)`, with the
`Math.random()` draw made explicit as the argument `u ∈ [0, 1)`. -/
def asteroidOrbitalRadius (u : ℝ) : ℝ :=
  beltInnerRadius + u * (beltOuterRadius - beltInnerRadius)

/-- `orbitalPeriodYears = Math.sqrt(Math.pow(orbitalRadiusAU, 3))` from
`generateAsteroids`, where `orbitalRadiusAU = orbitalRadius / 80`. -/
noncomputable def asteroidOrbitalPeriodYears (orbitalRadius : ℝ) : ℝ :=
  Real.sqrt ((orbitalRadius / 80) ^ (3 : ℕ))

/-- The asteroid angular speed from `generateAsteroids`, in radians per
second: `2π / (orbitalPeriodDays * 24 * 3600)` with
`orbitalPeriodDays = orbitalPeriodYears * 365.256`. -/
noncomputable def asteroidOrbitalSpeed (orbitalRadius : ℝ) : ℝ :=
  2 * Real.pi / ((asteroidOrbitalPeriodYears orbitalRadius * 365.256) * (24 * 3600))

/-! ## Keplerian scene position (`Planet.updatePosition`), real part -/

/-- `THREE.MathUtils.degToRad`. -/
noncomputable def degToRad (degrees : ℝ) : ℝ := degrees * (Real.pi / 180)

/-- JavaScript's `Math.atan2(y, x)` on finite inputs. -/
noncomputable def jsAtan2 (y x : ℝ) : ℝ :=
  if 0 < x then Real.arctan (y / x)
  else if x < 0 then
    (if 0 ≤ y then Real.arctan (y / x) + Real.pi
     else Real.arctan (y / x) - Real.pi)
  else
    (if 0 < y then Real.pi / 2
     else if y < 0 then -(Real.pi / 2)
     else 0)

/-- `Planet.updatePosition(time)` from `Planet.ts` as a pure function of the
planet's stored orbit angle `M` (the source reads `this.orbitAngle`): the
simplified Kepler chain `E = M + e sin M`,
`v = 2 atan2(√(1+e) sin(E/2), √(1-e) cos(E/2))`, `r = a(1-e²)/(1+e cos v)`,
in-plane `(x, z) = (r cos v, r sin v)`, and the inclination mapping to the
scene position `(x, z sin i, z cos i)`.  `a` is
`getScaledOrbitRadius(orbitalRadius)` exactly as in the source. -/
noncomputable def keplerScenePosition (orbitalRadiusAU eccentricity inclinationDeg M : ℝ) :
    ℝ × ℝ × ℝ :=
  let a := getScaledOrbitRadius orbitalRadiusAU
  let e := eccentricity
  let E := M + e * Real.sin M
  let v := 2 * jsAtan2 (Real.sqrt (1 + e) * Real.sin (E / 2))
    (Real.sqrt (1 - e) * Real.cos (E / 2))
  let r := a * (1 - e * e) / (1 + e * Real.cos v)
  let x := r * Real.cos v
  let z := r * Real.sin v
  let i := degToRad inclinationDeg
  (x, z * Real.sin i, z * Real.cos i)

/-! ## Per-frame update loop (`Planet.update`, `SolarSystem.update`,
`TimeControls.togglePlayPause`) -/

/-- The mutable per-planet animation state of a `Planet` instance that
`Planet.update` reads or writes: the immutable catalog entry and scale
factor, the epoch angle (`initialOrbitAngle`, set by the constructor or
`setReferenceDate`), and the per-frame outputs (orbit angle, rotation angle,
the group's scene position, and each moon's position relative to the
planet). -/
structure PlanetState where
  data : PlanetData
  currentScale : ℝ
  initialOrbitAngle : ℝ
  orbitAngle : ℝ
  rotationAngle : ℝ
  position : ℝ × ℝ × ℝ
  moonPositions : List (ℝ × ℝ)

/-- `Planet.update(delta, time)` from `Planet.ts`: recomputes the orbit
angle from `initialOrbitAngle` and the mean motion
`2π / (orbitalPeriod * 24 * 3600)`, the scene position via `updatePosition`,
the axial rotation angle (sign flipped for negative `rotationPeriod`), and
each moon's `(x, z)` offset
`(cos, sin)(time * 2π / (|orbitalPeriod| * 24 * 3600)) * moonOrbitRadius`.
Only `time` matters: `delta` is unused in the source body, and the fields
`data`, `currentScale`, `initialOrbitAngle` are read, never written. -/
noncomputable def planetUpdate (ps : PlanetState) (time : ℝ) : PlanetState :=
  let orbitalSpeed := 2 * Real.pi / ((ps.data.orbitalPeriod : ℝ) * 24 * 3600)
  let orbitAngle := ps.initialOrbitAngle + time * orbitalSpeed
  let rotationSpeed := 2 * Real.pi / (|(ps.data.rotationPeriod : ℝ)| * 3600)
  let rotationDirection : ℝ := if (ps.data.rotationPeriod : ℝ) < 0 then -1 else 1
  let rotationAngle := time * rotationSpeed * rotationDirection
  let moonPositions := ps.data.moons.map (fun m =>
    let moonOrbitSpeed := 2 * Real.pi / (|(m.orbitalPeriod : ℝ)| * 24 * 3600)
    let moonAngle := time * moonOrbitSpeed
    let moonOrbitRadius :=
      (getScaledMoonOrbitRadius m.orbitalRadius ps.data.name : ℝ) * ps.currentScale
    (Real.cos moonAngle * moonOrbitRadius, Real.sin moonAngle * moonOrbitRadius))
  { ps with
    orbitAngle := orbitAngle
    rotationAngle := rotationAngle
    position := keplerScenePosition (ps.data.orbitalRadius : ℝ)
      (ps.data.eccentricity : ℝ) (ps.data.inclination : ℝ) orbitAngle
    moonPositions := moonPositions }

/-- The fields of `SolarSystem` that its `update` and the time controls
touch: the time-scale multiplier, the accumulated simulation time, the sun's
rotation angle, and the per-planet states.  (Orbit-line shading and trail
rendering are display-only and not modelled.) -/
structure SolarSystemState where
  timeScale : ℝ
  currentTime : ℝ
  sunRotationY : ℝ
  planets : List PlanetState

/-- `SolarSystem.update(delta)` from `SolarSystem.ts`: advances the sun's
rotation by `delta * timeScale * 2π / (SUN_DATA.rotationPeriod * 24 * 3600)`,
accumulates `currentTime += delta * timeScale`, and calls
`planet.update(delta, currentTime)` on every planet with the new time. -/
noncomputable def solarSystemUpdate (s : SolarSystemState) (delta : ℝ) : SolarSystemState :=
  let sunRotationRate := 2 * Real.pi / ((sunRotationPeriodDays : ℝ) * 24 * 3600)
  let currentTime := s.currentTime + delta * s.timeScale
  { s with
    sunRotationY := s.sunRotationY + delta * s.timeScale * sunRotationRate
    currentTime := currentTime
    planets := s.planets.map (fun p => planetUpdate p currentTime) }

/-- `SolarSystem.setTimeScale(scale)` over the finite-valued state used by
the update loop (see `setTimeScaleJS` for the full number domain). -/
def solarSystemSetTimeScale (s : SolarSystemState) (scale : ℝ) : SolarSystemState :=
  { s with timeScale := scale }

/-- The `TimeControls` fields driving play/pause: the pause flag and the
user's chosen speed (kept while paused). -/
structure TimeControlsState where
  isPaused : Bool
  timeScale : ℝ

/-- `TimeControls.togglePlayPause()` from `TimeControls.ts`: flips
`isPaused`; while paused it forces the solar system's time scale to 0, and on
un-pausing it restores the remembered `this.timeScale`.  (The button-label
update is display-only.) -/
def togglePlayPause (tc : TimeControlsState) (ss : SolarSystemState) :
    TimeControlsState × SolarSystemState :=
  let isPaused := !tc.isPaused
  let tc' := { tc with isPaused := isPaused }
  if isPaused then (tc', solarSystemSetTimeScale ss 0)
  else (tc', solarSystemSetTimeScale ss tc.timeScale)

/-! ## Small arithmetic helpers -/

/-- The JavaScript remainder by 1 is the identity on `[0, 1)`. -/
theorem jsMod_one_of_mem (a : ℚ) (h0 : 0 ≤ a) (h1 : a < 1) : jsMod a 1 = a := by
  have hfloor : ⌊a⌋ = 0 := Int.floor_eq_zero_iff.mpr ⟨h0, h1⟩
  simp [jsMod, jsTrunc, if_pos h0, hfloor]

/-- If `b⁴ < c⁵` with both bases nonnegative then `b^0.8 < c`
(`x ↦ x⁵` is strictly monotone on nonnegatives and `(b^0.8)⁵ = b⁴`). -/
theorem rpowFourFifths_lt (b c : ℝ) (hb : 0 ≤ b) (hc : 0 ≤ c)
    (h : b ^ (4 : ℕ) < c ^ (5 : ℕ)) : b ^ ((0.8 : ℝ)) < c := by
  have hx : 0 ≤ b ^ ((0.8 : ℝ)) := Real.rpow_nonneg hb _
  have hpow : (b ^ ((0.8 : ℝ))) ^ (5 : ℕ) = b ^ (4 : ℕ) := by
    rw [← Real.rpow_natCast (b ^ ((0.8 : ℝ))) 5, ← Real.rpow_mul hb]
    norm_num
    rw [show ((4 : ℝ)) = ((4 : ℕ) : ℝ) by norm_num, Real.rpow_natCast]
  have := h
  rw [← hpow] at this
  exact lt_of_pow_lt_pow_left₀ 5 hc this

/-- If `c⁵ < b⁴` with both bases nonnegative then `c < b^0.8`. -/
theorem lt_rpowFourFifths (b c : ℝ) (hb : 0 ≤ b)
    (h : c ^ (5 : ℕ) < b ^ (4 : ℕ)) : c < b ^ ((0.8 : ℝ)) := by
  have hx : 0 ≤ b ^ ((0.8 : ℝ)) := Real.rpow_nonneg hb _
  have hpow : (b ^ ((0.8 : ℝ))) ^ (5 : ℕ) = b ^ (4 : ℕ) := by
    rw [← Real.rpow_natCast (b ^ ((0.8 : ℝ))) 5, ← Real.rpow_mul hb]
    norm_num
    rw [show ((4 : ℝ)) = ((4 : ℕ) : ℝ) by norm_num, Real.rpow_natCast]
  have := h
  rw [← hpow] at this
  exact lt_of_pow_lt_pow_left₀ 5 hx this

/-! ## C3 — moon orbits versus parent-body radii -/

/-- C3 counterexample: for Saturn's moon Titan (a catalog pair), the scaled
moon orbit radius *equals* the planet's scaled radius plus the moon's scaled
radius plus the code's safety margin 0.2 exactly — it is not strictly
greater, so the claimed strict inequality with the safety margin fails at
this pair. -/
theorem titan_orbit_equals_margin_floor :
    saturnData ∈ PLANETS
    ∧ ({ name := "Titan", radius := 2574.7, orbitalRadius := 1221700 / AU,
         orbitalPeriod := 15.945, inclination := 0.34 } : MoonData) ∈ saturnData.moons
    ∧ getScaledMoonOrbitRadius (1221700 / AU) "Saturn"
        = getScaledRadius saturnData.radius + getScaledMoonRadius 2574.7 + 0.2 := by
  refine ⟨by simp [PLANETS], by simp [saturnData], ?_⟩
  rw [getScaledMoonOrbitRadius, find?_saturn]
  norm_num +decide [saturnData, getScaledRadius, getScaledMoonRadius, jsMax, AU]

set_option maxHeartbeats 2000000 in
/-- C3 (amended): for every (planet, moon) pair in the catalog, the scaled
moon orbit radius is at least the planet's scaled radius plus the moon's
scaled radius plus the 0.2 safety margin (with equality attained, e.g. for
Titan), and in particular strictly exceeds the sum of the two scaled radii,
so no moon orbit visually intersects its parent body. -/
theorem moon_orbit_clears_parent (p : PlanetData) (hp : p ∈ PLANETS)
    (m : MoonData) (hm : m ∈ p.moons) :
    getScaledRadius p.radius + getScaledMoonRadius m.radius + 0.2
      ≤ getScaledMoonOrbitRadius m.orbitalRadius p.name
    ∧ getScaledRadius p.radius + getScaledMoonRadius m.radius
      < getScaledMoonOrbitRadius m.orbitalRadius p.name := by
  simp only [PLANETS] at hp
  fin_cases hp
  · simp [mercuryData] at hm
  · simp [venusData] at hm
  · simp only [earthData] at hm ⊢
    fin_cases hm
    rw [getScaledMoonOrbitRadius, find?_earth]
    refine ⟨?_, ?_⟩ <;>
      norm_num +decide [earthData, getScaledRadius, getScaledMoonRadius, jsMax, AU]
  · simp only [marsData] at hm ⊢
    fin_cases hm <;>
    · rw [getScaledMoonOrbitRadius, find?_mars]
      refine ⟨?_, ?_⟩ <;>
        norm_num +decide [marsData, getScaledRadius, getScaledMoonRadius, jsMax, AU]
  · simp only [jupiterData] at hm ⊢
    fin_cases hm <;>
    · rw [getScaledMoonOrbitRadius, find?_jupiter]
      refine ⟨?_, ?_⟩ <;>
        norm_num +decide [jupiterData, getScaledRadius, getScaledMoonRadius, jsMax, AU]
  · simp only [saturnData] at hm ⊢
    fin_cases hm <;>
    · rw [getScaledMoonOrbitRadius, find?_saturn]
      refine ⟨?_, ?_⟩ <;>
        norm_num +decide [saturnData, getScaledRadius, getScaledMoonRadius, jsMax, AU]
  · simp only [uranusData] at hm ⊢
    fin_cases hm <;>
    · rw [getScaledMoonOrbitRadius, find?_uranus]
      refine ⟨?_, ?_⟩ <;>
        norm_num +decide [uranusData, getScaledRadius, getScaledMoonRadius, jsMax, AU]
  · simp only [neptuneData] at hm ⊢
    fin_cases hm
    rw [getScaledMoonOrbitRadius, find?_neptune]
    refine ⟨?_, ?_⟩ <;>
      norm_num +decide [neptuneData, getScaledRadius, getScaledMoonRadius, jsMax, AU]

/-- C3 witness: the amended inequalities instantiated at the Earth–Moon
catalog pair. -/
theorem moon_orbit_clears_parent_witness :
    earthData ∈ PLANETS
    ∧ ({ name := "Moon", radius := 1737.4, orbitalRadius := 384400 / AU,
         orbitalPeriod := 27.322, inclination := 5.145 } : MoonData) ∈ earthData.moons
    ∧ (getScaledRadius earthData.radius + getScaledMoonRadius 1737.4 + 0.2
        ≤ getScaledMoonOrbitRadius (384400 / AU) "Earth"
      ∧ getScaledRadius earthData.radius + getScaledMoonRadius 1737.4
        < getScaledMoonOrbitRadius (384400 / AU) "Earth") := by
  refine ⟨by simp [PLANETS], by simp [earthData], ?_⟩
  exact moon_orbit_clears_parent earthData (by simp [PLANETS])
    { name := "Moon", radius := 1737.4, orbitalRadius := 384400 / AU,
      orbitalPeriod := 27.322, inclination := 5.145 } (by simp [earthData])

/-! ## C1 — re-anchoring epoch angle across one orbital period -/

/-- C1: evaluating `calculateOrbitAngleForDate` (embedded in revolutions) for
Earth at two reference dates exactly one orbital period (365.256 days)
apart advances the epoch angle by exactly `1/365.25` of a revolution
(`2π/365.25 ≈ 0.0172` rad), not by approximately `2π`; a half-period jump
likewise advances it by `2/1461` of a revolution instead of about half a
revolution.  The function divides by `orbitalPeriod * 365.25` days although
the catalog period is already in days (while `Planet.update` uses
`orbitalPeriod * 86400` seconds), so the epoch angle is consistent with the
planet's mean motion slowed by a factor 365.25. -/
theorem epoch_angle_period_jump_tiny :
    calculateOrbitAngleRevForDate 100.47 365.256 (2451545 + 365.256)
        - calculateOrbitAngleRevForDate 100.47 365.256 2451545 = 4 / 1461
    ∧ (4 : ℚ) / 1461 < 1 / 100
    ∧ calculateOrbitAngleRevForDate 100.47 365.256 (2451545 + 365.256 / 2)
        - calculateOrbitAngleRevForDate 100.47 365.256 2451545 = 2 / 1461
    ∧ (2 : ℚ) / 1461 < 1 / 100 := by
  have h0 : calculateOrbitAngleRevForDate 100.47 365.256 2451545 = 10047 / 36000 := by
    simp only [calculateOrbitAngleRevForDate]
    rw [show (2451545 : ℚ) - 2451545.0 = 0 by norm_num]
    rw [show (100.47 : ℚ) / 360 + 1 / (365.256 * 365.25) * 0 = 10047 / 36000 by norm_num]
    rw [jsMod_one_of_mem _ (by norm_num) (by norm_num)]
  have h1 : calculateOrbitAngleRevForDate 100.47 365.256 (2451545 + 365.256)
      = 10047 / 36000 + 4 / 1461 := by
    simp only [calculateOrbitAngleRevForDate]
    rw [show (2451545 : ℚ) + 365.256 - 2451545.0 = 365.256 by norm_num]
    rw [show (100.47 : ℚ) / 360 + 1 / (365.256 * 365.25) * 365.256
      = 10047 / 36000 + 4 / 1461 by norm_num]
    rw [jsMod_one_of_mem _ (by norm_num) (by norm_num)]
  have h2 : calculateOrbitAngleRevForDate 100.47 365.256 (2451545 + 365.256 / 2)
      = 10047 / 36000 + 2 / 1461 := by
    simp only [calculateOrbitAngleRevForDate]
    rw [show (2451545 : ℚ) + 365.256 / 2 - 2451545.0 = 365.256 / 2 by norm_num]
    rw [show (100.47 : ℚ) / 360 + 1 / (365.256 * 365.25) * (365.256 / 2)
      = 10047 / 36000 + 2 / 1461 by norm_num]
    rw [jsMod_one_of_mem _ (by norm_num) (by norm_num)]
  refine ⟨?_, by norm_num, ?_, by norm_num⟩ <;> rw [h0]
  · rw [h1]; ring
  · rw [h2]; ring

/-! ## C2 — retrograde moons in the per-frame update -/

/-- C2: the catalog's Neptune entry carries Triton with
`orbitalPeriod = -5.877` (negative, documented "Negative for retrograde"),
but the moon loop of `Planet.update` takes the absolute value of the period,
so Triton's orbit angle *increases* with elapsed simulation time — after one
simulated day it has grown by `1/5.877` of a revolution — rather than
decreasing as the claimed sign flip would make it. -/
theorem triton_moon_angle_increases :
    (PLANETS.find? (fun p => p.name == "Neptune")).map
        (fun p => p.moons.map (fun m => m.orbitalPeriod)) = some [-5.877]
    ∧ (-5.877 : ℚ) < 0
    ∧ moonOrbitAngleRev (-5.877) 0 = 0
    ∧ moonOrbitAngleRev (-5.877) 86400 = 1 / 5.877
    ∧ 0 < moonOrbitAngleRev (-5.877) 86400 := by
  refine ⟨?_, by norm_num, ?_, ?_, ?_⟩
  · rw [find?_neptune]; simp [neptuneData]
  all_goals norm_num [moonOrbitAngleRev, abs]

/-! ## C6 — catalog-load validation -/

/-- C6 counterexample: the catalog as loaded (the module-level `PLANETS`
literal — there is no validation step anywhere in the sources) contains a
body with a negative orbital period: Neptune's moon Triton, with
`orbitalPeriod = -5.877`.  Far from being rejected, the value flows into
`Planet.update`'s moon-angle formula, which evaluates on it without error
(producing `1/5.877` of a revolution per simulated day via the absolute
value). -/
theorem catalog_keeps_negative_period :
    neptuneData ∈ PLANETS
    ∧ ({ name := "Triton", radius := 1353.4, orbitalRadius := 354800 / AU,
         orbitalPeriod := -5.877, inclination := 156.885 } : MoonData) ∈ neptuneData.moons
    ∧ (-5.877 : ℚ) ≤ 0
    ∧ moonOrbitAngleRev (-5.877) 86400 = 1 / 5.877 := by
  refine ⟨by simp [PLANETS], by simp [neptuneData], by norm_num, ?_⟩
  norm_num [moonOrbitAngleRev, abs]

/-- C6 (amended): no validation exists, but every top-level planet entry of
the catalog does satisfy `0 < orbitalPeriod` and `0 ≤ eccentricity < 1`; the
only nonpositive period in the catalog is the (intentionally) retrograde
moon Triton, which the update consumes through `Math.abs`. -/
theorem planet_entries_numerically_safe (p : PlanetData) (hp : p ∈ PLANETS) :
    0 < p.orbitalPeriod ∧ 0 ≤ p.eccentricity ∧ p.eccentricity < 1 := by
  simp only [PLANETS] at hp
  fin_cases hp <;>
    norm_num [mercuryData, venusData, earthData, marsData, jupiterData,
      saturnData, uranusData, neptuneData]

/-- C6 witness: the amended bounds instantiated at the Mercury entry. -/
theorem planet_entries_numerically_safe_witness :
    mercuryData ∈ PLANETS
    ∧ (0 < mercuryData.orbitalPeriod
      ∧ 0 ≤ mercuryData.eccentricity ∧ mercuryData.eccentricity < 1) :=
  ⟨by simp [PLANETS], planet_entries_numerically_safe mercuryData (by simp [PLANETS])⟩

/-! ## C7 — the time-scale setter and non-finite input -/

/-- C7 counterexample: `SolarSystem.setTimeScale` is the bare assignment
`this.timeScale = scale`; called with `NaN` on a state whose stored scale is
the finite value 1, it overwrites the stored scale with `NaN` instead of
rejecting the input and keeping the prior value. -/
theorem setTimeScale_accepts_nan :
    (setTimeScaleJS { timeScale := JSNum.finite 1 } JSNum.nan).timeScale = JSNum.nan
    ∧ JSNum.nan ≠ JSNum.finite 1 := by
  exact ⟨rfl, by simp⟩

/-- C7 (amended): the setter stores *every* incoming value unchanged —
finite values without clamping (that half of the claim holds), but equally
`NaN` and the infinities, replacing the previously stored scale. -/
theorem setTimeScale_stores_unconditionally (s : TimeScaleState) (v : JSNum) :
    (setTimeScaleJS s v).timeScale = v := rfl

/-! ## C4 / C5 — the orbital-radius scale function -/

/-- C4 counterexample: `getScaledOrbitRadius` computes the power law, not
the linear policy — at Earth's 1 AU it returns 50 while the spec's linear
policy (`auDistance * 30`, absent from the source) would return 30.  The
source function takes only the AU distance, with no mode argument through
which a caller could select a policy. -/
theorem scaledOrbitRadius_is_not_linear :
    getScaledOrbitRadius 1 = 50
    ∧ linearScaledOrbitRadius 1 = 30
    ∧ getScaledOrbitRadius 1 ≠ linearScaledOrbitRadius 1 := by
  have h : getScaledOrbitRadius 1 = 50 := by
    simp [getScaledOrbitRadius, Real.one_rpow]
  refine ⟨h, by norm_num [linearScaledOrbitRadius], ?_⟩
  rw [h]; norm_num [linearScaledOrbitRadius]

/-- C4 (amended): the source supports exactly one orbital-radius policy, the
hard-coded power law `50 * d^0.8`; the linear policy named by the spec is
not implemented (the two disagree already at 1 AU) and nothing in the
function's inputs selects between policies. -/
theorem scaledOrbitRadius_power_law_only :
    (∀ d : ℝ, getScaledOrbitRadius d = 50 * d ^ ((0.8 : ℝ)))
    ∧ getScaledOrbitRadius 1 = 50
    ∧ getScaledOrbitRadius 1 ≠ linearScaledOrbitRadius 1 := by
  have h : getScaledOrbitRadius 1 = 50 := by
    simp [getScaledOrbitRadius, Real.one_rpow]
  refine ⟨fun d => rfl, h, ?_⟩
  rw [h]; norm_num [linearScaledOrbitRadius]

/-- C5: `getScaledOrbitRadius` is strictly monotone on positive AU
distances, sends Earth's 1 AU exactly to the base scale 50, and sends
Neptune's 30.07 AU to a value between 755 and 765 scene units (near the
claimed 761). -/
theorem scaledOrbitRadius_mono_and_anchors :
    (∀ d1 d2 : ℝ, 0 < d1 → d1 < d2 →
      getScaledOrbitRadius d1 < getScaledOrbitRadius d2)
    ∧ getScaledOrbitRadius 1 = 50
    ∧ 755 < getScaledOrbitRadius 30.07
    ∧ getScaledOrbitRadius 30.07 < 765 := by
  refine ⟨?_, ?_, ?_, ?_⟩
  · intro d1 d2 h1 h12
    have := Real.rpow_lt_rpow (le_of_lt h1) h12 (by norm_num : (0:ℝ) < 0.8)
    simpa [getScaledOrbitRadius] using by linarith
  · simp [getScaledOrbitRadius, Real.one_rpow]
  · have hx : (15.1 : ℝ) < (30.07 : ℝ) ^ ((0.8 : ℝ)) := by
      refine lt_rpowFourFifths _ _ (by norm_num) ?_
      norm_num
    simp only [getScaledOrbitRadius]
    nlinarith [hx]
  · have hx : (30.07 : ℝ) ^ ((0.8 : ℝ)) < 15.3 := by
      refine rpowFourFifths_lt _ _ (by norm_num) (by norm_num) ?_
      norm_num
    simp only [getScaledOrbitRadius]
    nlinarith [hx]

/-- C5 witness: strict monotonicity instantiated at `d1 = 1 < d2 = 2`,
together with the closed anchor facts. -/
theorem scaledOrbitRadius_mono_and_anchors_witness :
    (0 : ℝ) < 1 ∧ (1 : ℝ) < 2
    ∧ getScaledOrbitRadius 1 < getScaledOrbitRadius 2 :=
  ⟨by norm_num, by norm_num,
    scaledOrbitRadius_mono_and_anchors.1 1 2 (by norm_num) (by norm_num)⟩

/-! ## C10 — belt extent versus scaled planet orbits -/

/-- C10: the belt constructor fixes the sampling interval to
`[2.2·80, 3.3·80] = [176, 264]` scene units and every sampled radius lies in
it, while the power-law planet scale puts Mars near 70 units and Jupiter
between 187 and 188 units — so the belt's outer edge (264) lies well beyond
Jupiter's scaled orbit, and the fixed 80-units-per-AU belt interval is not
nested between the Mars and Jupiter scaled orbits. -/
theorem asteroid_belt_beyond_jupiter (u : ℝ) (hu0 : 0 ≤ u) (hu1 : u ≤ 1) :
    beltInnerRadius = 176
    ∧ beltOuterRadius = 264
    ∧ 176 ≤ asteroidOrbitalRadius u
    ∧ asteroidOrbitalRadius u ≤ 264
    ∧ 70 < getScaledOrbitRadius 1.524
    ∧ getScaledOrbitRadius 1.524 < 70.5
    ∧ 187 < getScaledOrbitRadius 5.204
    ∧ getScaledOrbitRadius 5.204 < 188
    ∧ getScaledOrbitRadius 5.204 < beltOuterRadius := by
  have hmars_lo : (1.4 : ℝ) < (1.524 : ℝ) ^ ((0.8 : ℝ)) := by
    refine lt_rpowFourFifths _ _ (by norm_num) ?_
    norm_num
  have hmars_hi : (1.524 : ℝ) ^ ((0.8 : ℝ)) < 1.41 := by
    refine rpowFourFifths_lt _ _ (by norm_num) (by norm_num) ?_
    norm_num
  have hjup_lo : (3.74 : ℝ) < (5.204 : ℝ) ^ ((0.8 : ℝ)) := by
    refine lt_rpowFourFifths _ _ (by norm_num) ?_
    norm_num
  have hjup_hi : (5.204 : ℝ) ^ ((0.8 : ℝ)) < 3.76 := by
    refine rpowFourFifths_lt _ _ (by norm_num) (by norm_num) ?_
    norm_num
  refine ⟨by norm_num [beltInnerRadius], by norm_num [beltOuterRadius], ?_, ?_, ?_, ?_, ?_, ?_, ?_⟩
  · simp only [asteroidOrbitalRadius, beltInnerRadius, beltOuterRadius]
    nlinarith
  · simp only [asteroidOrbitalRadius, beltInnerRadius, beltOuterRadius]
    nlinarith
  · simp only [getScaledOrbitRadius]; nlinarith [hmars_lo]
  · simp only [getScaledOrbitRadius]; nlinarith [hmars_hi]
  · simp only [getScaledOrbitRadius]; nlinarith [hjup_lo]
  · simp only [getScaledOrbitRadius]; nlinarith [hjup_hi]
  · simp only [getScaledOrbitRadius, beltOuterRadius]; nlinarith [hjup_hi]

/-- C10 witness: the belt bounds instantiated at the midpoint draw
`u = 1/2`. -/
theorem asteroid_belt_beyond_jupiter_witness :
    (0 : ℝ) ≤ 1/2 ∧ (1/2 : ℝ) ≤ 1
    ∧ (176 ≤ asteroidOrbitalRadius (1/2) ∧ asteroidOrbitalRadius (1/2) ≤ 264) :=
  ⟨by norm_num, by norm_num,
    (asteroid_belt_beyond_jupiter (1/2) (by norm_num) (by norm_num)).2.2.1,
    (asteroid_belt_beyond_jupiter (1/2) (by norm_num) (by norm_num)).2.2.2.1⟩

/-! ## C9 — asteroid angular speeds from Kepler's third law -/

/-- The generated period, in years, equals `(r/80)^1.5`: the source's
`Math.sqrt(Math.pow(orbitalRadiusAU, 3))` is the 3/2 power of the sampled
radius in AU. -/
theorem asteroidOrbitalPeriodYears_eq_rpow (r : ℝ) (hr : 0 ≤ r) :
    asteroidOrbitalPeriodYears r = (r / 80) ^ ((1.5 : ℝ)) := by
  have hx : (0 : ℝ) ≤ r / 80 := by positivity
  rw [asteroidOrbitalPeriodYears, Real.sqrt_eq_rpow,
    ← Real.rpow_natCast (r / 80) 3, ← Real.rpow_mul hx]
  norm_num

/-- C9: each asteroid's angular speed follows Kepler's third law from its
own sampled radius: the period in years is `(r/80)^1.5` (the radius in AU to
the 3/2), doubling the orbital radius multiplies the angular speed by
`2^(-1.5)`, and the speed is strictly decreasing in the radius, so
inner-belt asteroids orbit faster than outer-belt ones. -/
theorem asteroid_speed_kepler (r r2 : ℝ) (hr : 0 < r) (hr2 : r < r2) :
    asteroidOrbitalPeriodYears r = (r / 80) ^ ((1.5 : ℝ))
    ∧ asteroidOrbitalSpeed (2 * r) = asteroidOrbitalSpeed r * (2 : ℝ) ^ (-(1.5 : ℝ))
    ∧ asteroidOrbitalSpeed r2 < asteroidOrbitalSpeed r := by
  have hy : 0 < asteroidOrbitalPeriodYears r := by
    rw [asteroidOrbitalPeriodYears_eq_rpow r hr.le]
    exact Real.rpow_pos_of_pos (by positivity) _
  refine ⟨asteroidOrbitalPeriodYears_eq_rpow r hr.le, ?_, ?_⟩
  · have hdouble : asteroidOrbitalPeriodYears (2 * r)
        = (2 : ℝ) ^ ((1.5 : ℝ)) * asteroidOrbitalPeriodYears r := by
      rw [asteroidOrbitalPeriodYears_eq_rpow (2 * r) (by positivity),
        asteroidOrbitalPeriodYears_eq_rpow r hr.le,
        show (2 * r) / 80 = 2 * (r / 80) by ring,
        Real.mul_rpow (by norm_num) (by positivity)]
    have h2pow : (0 : ℝ) < (2 : ℝ) ^ ((1.5 : ℝ)) :=
      Real.rpow_pos_of_pos (by norm_num) _
    rw [asteroidOrbitalSpeed, asteroidOrbitalSpeed, hdouble,
      Real.rpow_neg (by norm_num : (0:ℝ) ≤ 2)]
    field_simp
    ring
  · have hr2pos : (0 : ℝ) < r2 := hr.trans hr2
    have hy2 : 0 < asteroidOrbitalPeriodYears r2 := by
      rw [asteroidOrbitalPeriodYears_eq_rpow r2 hr2pos.le]
      exact Real.rpow_pos_of_pos (div_pos hr2pos (by norm_num)) _
    have hmono : asteroidOrbitalPeriodYears r < asteroidOrbitalPeriodYears r2 := by
      rw [asteroidOrbitalPeriodYears_eq_rpow r hr.le,
        asteroidOrbitalPeriodYears_eq_rpow r2 hr2pos.le]
      refine Real.rpow_lt_rpow ?_ (by linarith) (by norm_num)
      positivity
    rw [asteroidOrbitalSpeed, asteroidOrbitalSpeed]
    have hda : 0 < asteroidOrbitalPeriodYears r * 365.256 * (24 * 3600) := by positivity
    have hdb : asteroidOrbitalPeriodYears r * 365.256 * (24 * 3600)
        < asteroidOrbitalPeriodYears r2 * 365.256 * (24 * 3600) := by nlinarith
    exact div_lt_div_of_pos_left Real.two_pi_pos hda hdb

/-- C9 witness: Kepler scaling instantiated at the belt radii `r = 80`
(1 AU) and `r2 = 160` (2 AU). -/
theorem asteroid_speed_kepler_witness :
    (0 : ℝ) < 80 ∧ (80 : ℝ) < 160
    ∧ (asteroidOrbitalPeriodYears 80 = ((80 : ℝ) / 80) ^ ((1.5 : ℝ))
      ∧ asteroidOrbitalSpeed (2 * 80) = asteroidOrbitalSpeed 80 * (2 : ℝ) ^ (-(1.5 : ℝ))
      ∧ asteroidOrbitalSpeed 160 < asteroidOrbitalSpeed 80) :=
  ⟨by norm_num, by norm_num,
    asteroid_speed_kepler 80 160 (by norm_num) (by norm_num)⟩

/-! ## C8 — pausing freezes every body -/

/-- `Planet.update` is idempotent at a fixed simulation time: it reads only
the fields it never writes (`data`, `currentScale`, `initialOrbitAngle`), so
updating twice with the same `time` writes the same outputs. -/
theorem planetUpdate_idem (ps : PlanetState) (t : ℝ) :
    planetUpdate (planetUpdate ps t) t = planetUpdate ps t := rfl

/-- With the time scale at 0, one frame leaves the simulation clock, the
sun's rotation, and (after the first frame) every planet state fixed. -/
theorem solarSystemUpdate_frozen (ct sr : ℝ) (ps : List PlanetState) (d d' : ℝ) :
    (solarSystemUpdate ⟨0, ct, sr, ps⟩ d).currentTime = ct
    ∧ (solarSystemUpdate ⟨0, ct, sr, ps⟩ d).sunRotationY = sr
    ∧ solarSystemUpdate (solarSystemUpdate ⟨0, ct, sr, ps⟩ d) d'
        = solarSystemUpdate ⟨0, ct, sr, ps⟩ d := by
  refine ⟨by simp [solarSystemUpdate], by simp [solarSystemUpdate], ?_⟩
  simp only [solarSystemUpdate, mul_zero, add_zero, zero_mul, List.map_map]
  rfl

/-- C8: if the controls are playing and the user toggles pause, the solar
system's effective time scale becomes 0, and from then on per-frame updates
with arbitrary wall-clock deltas change nothing: elapsed simulation time and
the sun's rotation stay constant across every update, and after the first
paused frame the whole state — every planet's orbit angle, scene position,
rotation angle, and every moon offset — is literally fixed under further
updates, until unpausing restores the remembered speed. -/
theorem pause_freezes_positions (tc : TimeControlsState) (ss : SolarSystemState)
    (hplay : tc.isPaused = false) (d d' : ℝ) :
    ((togglePlayPause tc ss).2).timeScale = 0
    ∧ (solarSystemUpdate (togglePlayPause tc ss).2 d).currentTime
        = ss.currentTime
    ∧ (solarSystemUpdate (togglePlayPause tc ss).2 d).sunRotationY
        = ss.sunRotationY
    ∧ solarSystemUpdate (solarSystemUpdate (togglePlayPause tc ss).2 d) d'
        = solarSystemUpdate (togglePlayPause tc ss).2 d
    ∧ ((togglePlayPause (togglePlayPause tc ss).1 ss).2).timeScale = tc.timeScale := by
  obtain ⟨ts, ct, sr, ps⟩ := ss
  have htoggle : (togglePlayPause tc ⟨ts, ct, sr, ps⟩).2 = ⟨0, ct, sr, ps⟩ := by
    simp [togglePlayPause, hplay, solarSystemSetTimeScale]
  have huntoggle : ((togglePlayPause (togglePlayPause tc ⟨ts, ct, sr, ps⟩).1
      ⟨ts, ct, sr, ps⟩).2).timeScale = tc.timeScale := by
    simp [togglePlayPause, hplay, solarSystemSetTimeScale]
  rw [htoggle]
  exact ⟨rfl, (solarSystemUpdate_frozen ct sr ps d d').1,
    (solarSystemUpdate_frozen ct sr ps d d').2.1,
    (solarSystemUpdate_frozen ct sr ps d d').2.2, huntoggle⟩

/-- A concrete playing `TimeControls` state for exercising the pause
scenario: playing, remembered speed 1000. -/
def demoTimeControls : TimeControlsState := { isPaused := false, timeScale := 1000 }

/-- A concrete running `SolarSystem` state for exercising the pause
scenario: speed 1000, 5 s of simulation time, and one planet (Mercury). -/
def demoSolarSystem : SolarSystemState :=
  { timeScale := 1000
    currentTime := 5
    sunRotationY := 7
    planets := [
      { data := mercuryData
        currentScale := 3
        initialOrbitAngle := 1
        orbitAngle := 1
        rotationAngle := 0
        position := (0, 0, 0)
        moonPositions := [] }] }

/-- C8 witness: the freeze instantiated on the concrete playing state
toggled to pause, with frame deltas 1/60 and 2. -/
theorem pause_freezes_positions_witness :
    demoTimeControls.isPaused = false
    ∧ ((togglePlayPause demoTimeControls demoSolarSystem).2).timeScale = 0 :=
  ⟨rfl, (pause_freezes_positions demoTimeControls demoSolarSystem rfl (1/60) 2).1⟩
